import Mathlib

/-!
Verification of the Image-Processing-DevOps pipeline orchestration.

The repository's pipeline definition (the CI/CD workflow file) declares six
jobs — lint, security-scan, test, build, deploy-staging, deploy-production —
with `needs` dependencies, trigger conditions, and a `component` matrix axis.
This file embeds that concrete pipeline definition, together with the
orchestration semantics described in the specification (matrix expansion,
dependency resolution, failure propagation, and the environment gate), and
proves the spec's testable properties about it.
-/

namespace DevOpsPipeline

/-- Terminal state of a job instance. -/
inductive Status
  | success
  | failure
  | skipped
deriving DecidableEq

/-- Event kinds that can trigger a run (the `on:` block of the workflow). -/
inductive EventKind
  | push
  | pull_request
  | workflow_dispatch
deriving DecidableEq

/-- The `environment` choice input of `workflow_dispatch`
(options: staging, production). -/
inductive DeployEnv
  | staging
  | production
deriving DecidableEq

/-- The values of the `component` matrix axis declared on the lint and build
jobs: `component: [frontend, backend, ml-service]`. -/
inductive Component
  | frontend
  | backend
  | mlService
deriving DecidableEq

/-- Names of the six jobs declared in the workflow's `jobs:` block. -/
inductive JobName
  | lint
  | securityScan
  | test
  | build
  | deployStaging
  | deployProduction
deriving DecidableEq

/-- Immutable description of the triggering event, carried read-only through
the run: event kind, git ref, commit SHA, and the manual-dispatch
`environment` input (present only for workflow_dispatch runs). -/
structure RunContext where
  eventName : EventKind
  ref : String
  sha : String
  inputEnvironment : Option DeployEnv
deriving DecidableEq

/-- Condition `build.if` (workflow line 212):
`github.event_name == 'push' || github.event_name == 'workflow_dispatch'`. -/
def buildCond (ctx : RunContext) : Bool :=
  ctx.eventName == .push || ctx.eventName == .workflow_dispatch

/-- Condition `deploy-staging.if` (workflow line 258):
`(github.ref == 'refs/heads/develop' && github.event_name == 'push') ||
(github.event_name == 'workflow_dispatch' &&
github.event.inputs.environment == 'staging')`. -/
def stagingCond (ctx : RunContext) : Bool :=
  (ctx.ref == "refs/heads/develop" && ctx.eventName == .push) ||
    (ctx.eventName == .workflow_dispatch && ctx.inputEnvironment == some .staging)

/-- Condition `deploy-production.if` (workflow line 319):
`(github.ref == 'refs/heads/main' && github.event_name == 'push') ||
(github.event_name == 'workflow_dispatch' &&
github.event.inputs.environment == 'production')`. -/
def productionCond (ctx : RunContext) : Bool :=
  (ctx.ref == "refs/heads/main" && ctx.eventName == .push) ||
    (ctx.eventName == .workflow_dispatch && ctx.inputEnvironment == some .production)

/-- A job declaration: name, dependency set (`needs`), trigger condition
(`if:`, constantly true when absent), the `component` matrix axis
(empty when the job declares no matrix), and the optional target
environment. -/
structure JobSpec where
  name : JobName
  needs : List JobName
  cond : RunContext → Bool
  matrix : List Component
  environment : Option DeployEnv

/-- A concrete schedulable unit produced by matrix expansion: the job's name
plus the `component` axis binding (none for jobs without a matrix). -/
structure JobInstance where
  jobName : JobName
  component : Option Component
deriving DecidableEq

/-- Job `lint` (workflow lines 21–84): no needs, no `if:`, matrix
`component: [frontend, backend, ml-service]`. -/
def lintJob : JobSpec :=
  { name := .lint, needs := [], cond := fun _ => true,
    matrix := [.frontend, .backend, .mlService], environment := none }

/-- Job `security-scan` (workflow lines 87–112): `needs: lint`. -/
def securityScanJob : JobSpec :=
  { name := .securityScan, needs := [.lint], cond := fun _ => true,
    matrix := [], environment := none }

/-- Job `test` (workflow lines 115–205): `needs: lint`. -/
def testJob : JobSpec :=
  { name := .test, needs := [.lint], cond := fun _ => true,
    matrix := [], environment := none }

/-- Job `build` (workflow lines 208–251): `needs: [test, security-scan]`, an
`if:` admitting push and workflow_dispatch, matrix
`component: [frontend, backend, ml-service]`. -/
def buildJob : JobSpec :=
  { name := .build, needs := [.test, .securityScan], cond := buildCond,
    matrix := [.frontend, .backend, .mlService], environment := none }

/-- Job `deploy-staging` (workflow lines 254–312): `needs: build`, the staging
promotion rule as `if:`, `environment: staging`. -/
def deployStagingJob : JobSpec :=
  { name := .deployStaging, needs := [.build], cond := stagingCond,
    matrix := [], environment := some .staging }

/-- Job `deploy-production` (workflow lines 315–373): `needs: build`, the
production promotion rule as `if:`, `environment: production`. -/
def deployProductionJob : JobSpec :=
  { name := .deployProduction, needs := [.build], cond := productionCond,
    matrix := [], environment := some .production }

/-- The six jobs of the workflow's `jobs:` block, in declaration order. -/
def pipeline : List JobSpec :=
  [lintJob, securityScanJob, testJob, buildJob, deployStagingJob,
    deployProductionJob]

/-- Modelled from the spec: the Matrix Expander (spec §4.2) — the
orchestration engine that executes the workflow is not part of the
repository's sources. A job with no matrix axis yields exactly one instance;
a job with the `component` axis yields one instance per value, in declared
order, each carrying its axis binding. -/
def expand (j : JobSpec) : List JobInstance :=
  match j.matrix with
  | [] => [⟨j.name, none⟩]
  | vs => vs.map fun v => ⟨j.name, some v⟩

/-- Modelled from the spec: outcome oracle for the Step Runner — whether the
steps of a given job instance would all succeed if the instance were run.
The scheduler consults it only for instances it actually runs. -/
def Oracle : Type := JobInstance → Bool

/-- Modelled from the spec: a dependency named `d` counts as satisfied when
`d` has resolved and every one of its instances resolved to success ("a
dependency on an un-expanded JobSpec implicitly depends on all of its
expanded instances", spec §4.3). -/
def jobSucceeded (acc : List (JobInstance × Status)) (d : JobName) : Bool :=
  acc.any (fun p => p.1.jobName == d) &&
    acc.all (fun p => !(p.1.jobName == d) || p.2 == Status.success)

/-- Modelled from the spec: all `needs` of a job are satisfied. -/
def needsOk (acc : List (JobInstance × Status)) (needs : List JobName) : Bool :=
  needs.all (jobSucceeded acc)

/-- Modelled from the spec: the Job Graph Scheduler's resolution of one job
(spec §4.3) — a job runs only when its condition holds for the run context
and every dependency resolved to success; otherwise all of its instances are
marked `skipped` without executing. When it runs, each matrix instance's
terminal state is success or failure according to the outcome oracle,
independently of its siblings. -/
def resolveJob (acc : List (JobInstance × Status)) (ctx : RunContext)
    (o : Oracle) (j : JobSpec) : List (JobInstance × Status) :=
  (expand j).map fun inst =>
    (inst,
      if j.cond ctx && needsOk acc j.needs then
        (if o inst then Status.success else Status.failure)
      else Status.skipped)

/-- Modelled from the spec: the Job Graph Scheduler (spec §4.3) — jobs are
resolved in a stable topological order (declaration order, which in this
pipeline lists every job after all of its dependencies), so the produced
list is both the set of terminal states and the deterministic scheduling
order. -/
def resolvePipeline (jobs : List JobSpec) (ctx : RunContext) (o : Oracle) :
    List (JobInstance × Status) :=
  jobs.foldl (fun acc j => acc ++ resolveJob acc ctx o j) []

/-- Resolution of the repository's pipeline. -/
def runResolve (ctx : RunContext) (o : Oracle) : List (JobInstance × Status) :=
  resolvePipeline pipeline ctx o

/-- Terminal state of the instance of job `n` with axis binding `c`, if any. -/
def statusOf (resolved : List (JobInstance × Status)) (n : JobName)
    (c : Option Component) : Option Status :=
  (resolved.find? fun p => p.1.jobName == n && p.1.component == c).map (·.2)

/-- The matrix instance of `lint` for one component. -/
def lintInst (c : Component) : JobInstance := ⟨.lint, some c⟩

/-- The matrix instance of `build` for one component. -/
def buildInst (c : Component) : JobInstance := ⟨.build, some c⟩

/-- The single instance of `security-scan`. -/
def scanInst : JobInstance := ⟨.securityScan, none⟩

/-- The single instance of `test`. -/
def testInst : JobInstance := ⟨.test, none⟩

/-- The single instance of `deploy-staging`. -/
def stagingInst : JobInstance := ⟨.deployStaging, none⟩

/-- The single instance of `deploy-production`. -/
def productionInst : JobInstance := ⟨.deployProduction, none⟩

/-- Closed form of a `lint` instance's terminal state: lint has no needs and
no condition, so the instance runs and succeeds or fails on its own steps. -/
def lintStatus (o : Oracle) (c : Component) : Status :=
  if o (lintInst c) then .success else .failure

/-- All three lint matrix instances succeeded. -/
def lintAllOk (o : Oracle) : Bool :=
  o (lintInst .frontend) && o (lintInst .backend) && o (lintInst .mlService)

/-- Closed form of `security-scan`'s terminal state (`needs: lint`). -/
def scanStatus (o : Oracle) : Status :=
  if lintAllOk o then (if o scanInst then .success else .failure)
  else .skipped

/-- Closed form of `test`'s terminal state (`needs: lint`). -/
def testStatus (o : Oracle) : Status :=
  if lintAllOk o then (if o testInst then .success else .failure)
  else .skipped

/-- Guard that `build` runs: its condition admits the event and both needs succeeded. -/
def buildReady (ctx : RunContext) (o : Oracle) : Bool :=
  buildCond ctx && (testStatus o == .success) && (scanStatus o == .success)

/-- Closed form of a `build` instance's terminal state. -/
def buildStatus (ctx : RunContext) (o : Oracle) (c : Component) : Status :=
  if buildReady ctx o then (if o (buildInst c) then .success else .failure)
  else .skipped

/-- All three build matrix instances succeeded. -/
def buildAllOk (ctx : RunContext) (o : Oracle) : Bool :=
  (buildStatus ctx o .frontend == .success) &&
    (buildStatus ctx o .backend == .success) &&
    (buildStatus ctx o .mlService == .success)

/-- Closed form of `deploy-staging`'s terminal state. -/
def stagingStatus (ctx : RunContext) (o : Oracle) : Status :=
  if stagingCond ctx && buildAllOk ctx o then
    (if o stagingInst then .success else .failure)
  else .skipped

/-- Closed form of `deploy-production`'s terminal state. -/
def productionStatus (ctx : RunContext) (o : Oracle) : Status :=
  if productionCond ctx && buildAllOk ctx o then
    (if o productionInst then .success else .failure)
  else .skipped

/-- Resolving the pipeline yields exactly the ten job instances, in
declaration order, with the closed-form terminal states. -/
theorem runResolve_closed (ctx : RunContext) (o : Oracle) :
    runResolve ctx o =
      [(lintInst .frontend, lintStatus o .frontend),
       (lintInst .backend, lintStatus o .backend),
       (lintInst .mlService, lintStatus o .mlService),
       (scanInst, scanStatus o),
       (testInst, testStatus o),
       (buildInst .frontend, buildStatus ctx o .frontend),
       (buildInst .backend, buildStatus ctx o .backend),
       (buildInst .mlService, buildStatus ctx o .mlService),
       (stagingInst, stagingStatus ctx o),
       (productionInst, productionStatus ctx o)] := by
  simp [runResolve, resolvePipeline, pipeline, lintJob, securityScanJob,
    testJob, buildJob, deployStagingJob, deployProductionJob, resolveJob,
    expand, needsOk, jobSucceeded, lintInst, buildInst, scanInst, testInst,
    stagingInst, productionInst, lintStatus, lintAllOk, scanStatus,
    testStatus, buildReady, buildStatus, buildAllOk, stagingStatus,
    productionStatus, and_assoc]

end DevOpsPipeline

namespace DevOpsPipeline

theorem statusOf_lint_some (ctx : RunContext) (o : Oracle) (c : Component) :
    statusOf (runResolve ctx o) .lint (some c) = some (lintStatus o c) := by
  rw [runResolve_closed]
  cases c <;> simp [statusOf, lintInst, buildInst, scanInst, testInst,
    stagingInst, productionInst]

theorem statusOf_lint_none (ctx : RunContext) (o : Oracle) :
    statusOf (runResolve ctx o) .lint none = none := by
  rw [runResolve_closed]
  simp [statusOf, lintInst, buildInst, scanInst, testInst, stagingInst,
    productionInst]

theorem statusOf_scan (ctx : RunContext) (o : Oracle) :
    statusOf (runResolve ctx o) .securityScan none = some (scanStatus o) := by
  rw [runResolve_closed]
  simp [statusOf, lintInst, buildInst, scanInst, testInst, stagingInst,
    productionInst]

theorem statusOf_scan_some (ctx : RunContext) (o : Oracle) (c : Component) :
    statusOf (runResolve ctx o) .securityScan (some c) = none := by
  rw [runResolve_closed]
  simp [statusOf, lintInst, buildInst, scanInst, testInst, stagingInst,
    productionInst]

theorem statusOf_test (ctx : RunContext) (o : Oracle) :
    statusOf (runResolve ctx o) .test none = some (testStatus o) := by
  rw [runResolve_closed]
  simp [statusOf, lintInst, buildInst, scanInst, testInst, stagingInst,
    productionInst]

theorem statusOf_test_some (ctx : RunContext) (o : Oracle) (c : Component) :
    statusOf (runResolve ctx o) .test (some c) = none := by
  rw [runResolve_closed]
  simp [statusOf, lintInst, buildInst, scanInst, testInst, stagingInst,
    productionInst]

theorem statusOf_build_some (ctx : RunContext) (o : Oracle) (c : Component) :
    statusOf (runResolve ctx o) .build (some c) = some (buildStatus ctx o c) := by
  rw [runResolve_closed]
  cases c <;> simp [statusOf, lintInst, buildInst, scanInst, testInst,
    stagingInst, productionInst]

theorem statusOf_build_none (ctx : RunContext) (o : Oracle) :
    statusOf (runResolve ctx o) .build none = none := by
  rw [runResolve_closed]
  simp [statusOf, lintInst, buildInst, scanInst, testInst, stagingInst,
    productionInst]

theorem statusOf_staging (ctx : RunContext) (o : Oracle) :
    statusOf (runResolve ctx o) .deployStaging none = some (stagingStatus ctx o) := by
  rw [runResolve_closed]
  simp [statusOf, lintInst, buildInst, scanInst, testInst, stagingInst,
    productionInst]

theorem statusOf_staging_some (ctx : RunContext) (o : Oracle) (c : Component) :
    statusOf (runResolve ctx o) .deployStaging (some c) = none := by
  rw [runResolve_closed]
  simp [statusOf, lintInst, buildInst, scanInst, testInst, stagingInst,
    productionInst]

theorem statusOf_production (ctx : RunContext) (o : Oracle) :
    statusOf (runResolve ctx o) .deployProduction none
      = some (productionStatus ctx o) := by
  rw [runResolve_closed]
  simp [statusOf, lintInst, buildInst, scanInst, testInst, stagingInst,
    productionInst]

theorem statusOf_production_some (ctx : RunContext) (o : Oracle) (c : Component) :
    statusOf (runResolve ctx o) .deployProduction (some c) = none := by
  rw [runResolve_closed]
  simp [statusOf, lintInst, buildInst, scanInst, testInst, stagingInst,
    productionInst]

end DevOpsPipeline

namespace DevOpsPipeline

theorem lintAllOk_false_of_fail {o : Oracle} {c : Component}
    (h : o (lintInst c) = false) : lintAllOk o = false := by
  cases c <;> simp [lintAllOk, h]

theorem lintStatus_failure_iff {o : Oracle} {c : Component} :
    lintStatus o c = .failure ↔ o (lintInst c) = false := by
  cases h : o (lintInst c) <;> simp [lintStatus, h]

theorem skipped_of_lintAllOk_false {o : Oracle} (h : lintAllOk o = false) :
    scanStatus o = .skipped ∧ testStatus o = .skipped := by
  simp [scanStatus, testStatus, h]

theorem buildReady_false_of_lintAllOk_false {ctx : RunContext} {o : Oracle}
    (h : lintAllOk o = false) : buildReady ctx o = false := by
  obtain ⟨h1, h2⟩ := skipped_of_lintAllOk_false h
  simp [buildReady, h1, h2]

theorem skipped_of_buildReady_false {ctx : RunContext} {o : Oracle}
    (h : buildReady ctx o = false) :
    (∀ c, buildStatus ctx o c = .skipped) ∧ buildAllOk ctx o = false ∧
      stagingStatus ctx o = .skipped ∧ productionStatus ctx o = .skipped := by
  have hb : ∀ c, buildStatus ctx o c = .skipped := fun c => by
    simp [buildStatus, h]
  have hba : buildAllOk ctx o = false := by simp [buildAllOk, hb]
  exact ⟨hb, hba, by simp [stagingStatus, hba], by simp [productionStatus, hba]⟩

theorem deploys_skipped_of_buildAllOk_false {ctx : RunContext} {o : Oracle}
    (h : buildAllOk ctx o = false) :
    stagingStatus ctx o = .skipped ∧ productionStatus ctx o = .skipped := by
  simp [stagingStatus, productionStatus, h]

theorem buildAllOk_false_of_fail {ctx : RunContext} {o : Oracle} {c : Component}
    (h : buildStatus ctx o c = .failure) : buildAllOk ctx o = false := by
  cases c <;> simp [buildAllOk, h]

/-- All six job names, for the bounded reachability computation. -/
def allJobNames : List JobName :=
  [.lint, .securityScan, .test, .build, .deployStaging, .deployProduction]

/-- Job `b` directly declares `a` in its `needs` list. -/
def directNeeds (b a : JobName) : Bool :=
  pipeline.any fun j => j.name == b && j.needs.contains a

/-- Bounded reachability along `needs` edges. -/
def reachesNeeds : Nat → JobName → JobName → Bool
  | 0, _, _ => false
  | n + 1, b, a =>
    directNeeds b a ||
      allJobNames.any fun m => directNeeds b m && reachesNeeds n m a

/-- Job `b` depends on `a` directly or transitively via `needs` (any path has
length at most the number of jobs). -/
def transNeeds (b a : JobName) : Bool := reachesNeeds 6 b a

/-- Spot checks of the dependency-closure table: deploy-production
transitively needs lint, security-scan directly needs lint, lint needs
nothing, and test does not need security-scan. -/
theorem transNeeds_spot_checks :
    transNeeds .deployProduction .lint = true ∧
      transNeeds .securityScan .lint = true ∧
      transNeeds .lint .lint = false ∧
      transNeeds .test .securityScan = false := by decide

end DevOpsPipeline

namespace DevOpsPipeline

/-- C1: in this pipeline, whenever any instance of job `a` resolves to
failure, every instance of every job `b` that depends on `a` via `needs` —
directly or transitively — resolves to `skipped` (never to `success` or
`failure`, hence is never run). No job of this pipeline opts into running on
upstream failure. -/
theorem c1_failed_dependency_skips_dependents (ctx : RunContext) (o : Oracle)
    (a b : JobName) (ca cb : Option Component)
    (hdep : transNeeds b a = true)
    (hfail : statusOf (runResolve ctx o) a ca = some .failure) :
    statusOf (runResolve ctx o) b cb = some .skipped ∨
      statusOf (runResolve ctx o) b cb = none := by
  cases a with
  | lint =>
    have hall : lintAllOk o = false := by
      rcases ca with _ | c
      · rw [statusOf_lint_none] at hfail; simp at hfail
      · rw [statusOf_lint_some] at hfail
        exact lintAllOk_false_of_fail
          (lintStatus_failure_iff.mp (Option.some.inj hfail))
    obtain ⟨hsc, hts⟩ := skipped_of_lintAllOk_false hall
    obtain ⟨hb, _, hst, hpd⟩ :=
      skipped_of_buildReady_false (@buildReady_false_of_lintAllOk_false ctx o hall)
    cases b with
    | lint => exact absurd hdep (by decide)
    | securityScan =>
      rcases cb with _ | c'
      · exact Or.inl (by rw [statusOf_scan, hsc])
      · exact Or.inr (statusOf_scan_some ctx o c')
    | test =>
      rcases cb with _ | c'
      · exact Or.inl (by rw [statusOf_test, hts])
      · exact Or.inr (statusOf_test_some ctx o c')
    | build =>
      rcases cb with _ | c'
      · exact Or.inr (statusOf_build_none ctx o)
      · exact Or.inl (by rw [statusOf_build_some, hb c'])
    | deployStaging =>
      rcases cb with _ | c'
      · exact Or.inl (by rw [statusOf_staging, hst])
      · exact Or.inr (statusOf_staging_some ctx o c')
    | deployProduction =>
      rcases cb with _ | c'
      · exact Or.inl (by rw [statusOf_production, hpd])
      · exact Or.inr (statusOf_production_some ctx o c')
  | securityScan =>
    have hscf : scanStatus o = .failure := by
      rcases ca with _ | c
      · rw [statusOf_scan] at hfail; exact Option.some.inj hfail
      · rw [statusOf_scan_some] at hfail; simp at hfail
    obtain ⟨hb, _, hst, hpd⟩ := skipped_of_buildReady_false
      (by simp [buildReady, hscf] : buildReady ctx o = false)
    cases b with
    | lint => exact absurd hdep (by decide)
    | securityScan => exact absurd hdep (by decide)
    | test => exact absurd hdep (by decide)
    | build =>
      rcases cb with _ | c'
      · exact Or.inr (statusOf_build_none ctx o)
      · exact Or.inl (by rw [statusOf_build_some, hb c'])
    | deployStaging =>
      rcases cb with _ | c'
      · exact Or.inl (by rw [statusOf_staging, hst])
      · exact Or.inr (statusOf_staging_some ctx o c')
    | deployProduction =>
      rcases cb with _ | c'
      · exact Or.inl (by rw [statusOf_production, hpd])
      · exact Or.inr (statusOf_production_some ctx o c')
  | test =>
    have htf : testStatus o = .failure := by
      rcases ca with _ | c
      · rw [statusOf_test] at hfail; exact Option.some.inj hfail
      · rw [statusOf_test_some] at hfail; simp at hfail
    obtain ⟨hb, _, hst, hpd⟩ := skipped_of_buildReady_false
      (by simp [buildReady, htf] : buildReady ctx o = false)
    cases b with
    | lint => exact absurd hdep (by decide)
    | securityScan => exact absurd hdep (by decide)
    | test => exact absurd hdep (by decide)
    | build =>
      rcases cb with _ | c'
      · exact Or.inr (statusOf_build_none ctx o)
      · exact Or.inl (by rw [statusOf_build_some, hb c'])
    | deployStaging =>
      rcases cb with _ | c'
      · exact Or.inl (by rw [statusOf_staging, hst])
      · exact Or.inr (statusOf_staging_some ctx o c')
    | deployProduction =>
      rcases cb with _ | c'
      · exact Or.inl (by rw [statusOf_production, hpd])
      · exact Or.inr (statusOf_production_some ctx o c')
  | build =>
    have hbf : buildAllOk ctx o = false := by
      rcases ca with _ | c
      · rw [statusOf_build_none] at hfail; simp at hfail
      · rw [statusOf_build_some] at hfail
        exact buildAllOk_false_of_fail (Option.some.inj hfail)
    obtain ⟨hst, hpd⟩ := deploys_skipped_of_buildAllOk_false hbf
    cases b with
    | lint => exact absurd hdep (by decide)
    | securityScan => exact absurd hdep (by decide)
    | test => exact absurd hdep (by decide)
    | build => exact absurd hdep (by decide)
    | deployStaging =>
      rcases cb with _ | c'
      · exact Or.inl (by rw [statusOf_staging, hst])
      · exact Or.inr (statusOf_staging_some ctx o c')
    | deployProduction =>
      rcases cb with _ | c'
      · exact Or.inl (by rw [statusOf_production, hpd])
      · exact Or.inr (statusOf_production_some ctx o c')
  | deployStaging => cases b <;> exact absurd hdep (by decide)
  | deployProduction => cases b <;> exact absurd hdep (by decide)

/-- Run context of the C1 witness: a push to `develop` at a fixed SHA. -/
def devPushCtx : RunContext :=
  { eventName := .push, ref := "refs/heads/develop",
    sha := "0123456789abcdef0123456789abcdef01234567", inputEnvironment := none }

/-- Oracle of the C1/C2 scenario: every instance's steps succeed except
`lint (backend)`. -/
def lintBackendFails : Oracle :=
  fun i => !(i == ⟨.lint, some .backend⟩)

/-- Witness for C1: with `lint (backend)` failing on a develop push, `test`
resolves to `skipped`. -/
theorem c1_failed_dependency_skips_dependents_witness :
    statusOf (runResolve devPushCtx lintBackendFails) .test none
        = some .skipped ∨
      statusOf (runResolve devPushCtx lintBackendFails) .test none = none :=
  c1_failed_dependency_skips_dependents devPushCtx lintBackendFails
    .lint .test (some .backend) none (by decide) (by decide)

end DevOpsPipeline

namespace DevOpsPipeline

/-- Which step of a failed deploy job is reported as the first failing step:
the rollout-status poll (`Verify deployment`) or the health probe
(`Run smoke tests`). -/
inductive GateFailureKind
  | rolloutTimeout
  | smokeTestFailed
deriving DecidableEq

/-- State of the deployment target observed by a deploy job: whether all
managed workloads reach `ready` before the rollout-status poll gives up, and
the HTTP status returned by `GET $BASE_URL/api/health` (none when no
response arrives). -/
structure ClusterWorld where
  rolloutReady : Bool
  healthResponse : Option Nat
deriving DecidableEq

/-- Observable outcome of a deploy job: terminal state, whether the
environment-scoped secrets were bound (the AWS-credentials step ran), whether
the manifests were applied (`kubectl apply` ran), and the reported failing
step, if any. -/
structure GateOutcome where
  status : Status
  secretsBound : Bool
  manifestApplied : Bool
  failedStep : Option GateFailureKind
deriving DecidableEq

/-- Semantics of `curl -f` against the health endpoint: succeeds exactly when a response
arrives with an HTTP status below 400 (curl treats only 4xx/5xx as errors;
redirects and 2xx exit 0). -/
def curlOk (r : Option Nat) : Bool :=
  match r with
  | none => false
  | some code => code < 400

/-- Modelled from the spec: the Environment Gate (spec §4.4) running a deploy
job's step list (workflow lines 261–312 and 322–373) — the engine executing
these steps is not part of the repository's sources. If the job's condition
does not match the run context, or a dependency did not succeed, the job
resolves to `skipped` with no side effects. Otherwise the steps run in
order: credentials are bound and the manifests applied, then the rollout
poll; if it times out the job fails at `Verify deployment`; otherwise the
smoke-test probe runs and the job fails at `Run smoke tests` when the probe
fails. No step rolls an applied manifest back. -/
def runDeployJob (condHolds depsOk : Bool) (w : ClusterWorld) : GateOutcome :=
  if condHolds && depsOk then
    if w.rolloutReady then
      if curlOk w.healthResponse then
        { status := .success, secretsBound := true, manifestApplied := true,
          failedStep := none }
      else
        { status := .failure, secretsBound := true, manifestApplied := true,
          failedStep := some .smokeTestFailed }
    else
      { status := .failure, secretsBound := true, manifestApplied := true,
        failedStep := some .rolloutTimeout }
  else
    { status := .skipped, secretsBound := false, manifestApplied := false,
      failedStep := none }

/-- The `deploy-staging` job as run by the gate: its condition is the
staging promotion rule, and its single dependency is `build` (all matrix
instances). -/
def deployStagingOutcome (ctx : RunContext) (o : Oracle) (w : ClusterWorld) :
    GateOutcome :=
  runDeployJob (stagingCond ctx) (buildAllOk ctx o) w

/-- The `deploy-production` job as run by the gate. -/
def deployProductionOutcome (ctx : RunContext) (o : Oracle) (w : ClusterWorld) :
    GateOutcome :=
  runDeployJob (productionCond ctx) (buildAllOk ctx o) w

/-- Oracle under which every instance's own steps succeed. -/
def allOkOracle : Oracle := fun _ => true

/-- A healthy deployment target: rollout ready, health probe answers 200. -/
def goodWorld : ClusterWorld := ⟨true, some 200⟩

/-- Run context: push to `main` at a fixed SHA. -/
def mainPushCtx : RunContext :=
  { eventName := .push, ref := "refs/heads/main",
    sha := "0123456789abcdef0123456789abcdef01234567",
    inputEnvironment := none }

/-- Run context: push to `feature/x`. -/
def featurePushCtx : RunContext :=
  { eventName := .push, ref := "refs/heads/feature/x",
    sha := "0123456789abcdef0123456789abcdef01234567",
    inputEnvironment := none }

/-- One recorded pipeline run: its trigger, its step outcomes, and the
deployment target's behaviour during it. -/
structure RunRecord where
  ctx : RunContext
  oracle : Oracle
  world : ClusterWorld

/-- Whether some run in the history promoted the artifact of commit `sha`
to staging successfully. -/
def stagingPromoted (history : List RunRecord) (sha : String) : Bool :=
  history.any fun r =>
    r.ctx.sha == sha &&
      ((deployStagingOutcome r.ctx r.oracle r.world).status == Status.success)

/-- Counterexample to C3: a push to `main` deploys production although
staging never promoted that commit in any run (here the whole history is
this single run, in which staging is skipped), and the run was not a manual
dispatch targeting production. The production gate's condition reads only
the trigger; it has no cross-environment check. -/
theorem c3_counterexample :
    (deployProductionOutcome mainPushCtx allOkOracle goodWorld).manifestApplied
        = true ∧
      (deployProductionOutcome mainPushCtx allOkOracle goodWorld).status
        = Status.success ∧
      stagingPromoted [⟨mainPushCtx, allOkOracle, goodWorld⟩] mainPushCtx.sha
        = false ∧
      mainPushCtx.eventName ≠ EventKind.workflow_dispatch := by
  refine ⟨by decide, by decide, by decide, by decide⟩

/-- C3 amended: the production gate promotes (applies manifests) exactly when
its own trigger rule matches — push to `main`, or manual dispatch with
`environment=production` — and every build instance succeeded; it consults
no staging promotion history. -/
theorem c3_production_gate_checks_only_trigger (ctx : RunContext) (o : Oracle)
    (w : ClusterWorld) :
    (deployProductionOutcome ctx o w).manifestApplied = true ↔
      (productionCond ctx = true ∧ buildAllOk ctx o = true) := by
  cases hc : productionCond ctx <;> cases hd : buildAllOk ctx o <;>
    cases hr : w.rolloutReady <;> cases hp : curlOk w.healthResponse <;>
      simp [deployProductionOutcome, runDeployJob, hc, hd, hr, hp]

/-- C4: a run context that does not match deploy-staging's promotion rule
resolves the job directly to `skipped`, with no manifest applied and no
environment-scoped secret bound. -/
theorem c4_nonmatching_rule_skips_without_effects (ctx : RunContext)
    (o : Oracle) (w : ClusterWorld) (h : stagingCond ctx = false) :
    statusOf (runResolve ctx o) .deployStaging none = some .skipped ∧
      deployStagingOutcome ctx o w =
        { status := .skipped, secretsBound := false, manifestApplied := false,
          failedStep := none } := by
  constructor
  · rw [statusOf_staging]; simp [stagingStatus, h]
  · simp [deployStagingOutcome, runDeployJob, h]

/-- Witness for C4: a push to `feature/x` does not match the staging rule
(branch `develop` or dispatch with `environment=staging`); deploy-staging is
skipped with zero side effects. -/
theorem c4_nonmatching_rule_skips_without_effects_witness :
    statusOf (runResolve featurePushCtx allOkOracle) .deployStaging none
        = some .skipped ∧
      deployStagingOutcome featurePushCtx allOkOracle goodWorld =
        { status := .skipped, secretsBound := false, manifestApplied := false,
          failedStep := none } :=
  c4_nonmatching_rule_skips_without_effects featurePushCtx allOkOracle
    goodWorld (by decide)

end DevOpsPipeline

namespace DevOpsPipeline

/-- Deployment target for the C5 counterexample: rollout ready, health
probe answers 301 — a redirect, not a 2xx status. -/
def redirectWorld : ClusterWorld := ⟨true, some 301⟩

/-- Counterexample to C5 as stated: with the rollout ready, the smoke-test
probe returns 301 — not a 2xx status — yet the deploy job resolves to
`success`, because `curl -f` fails only on HTTP errors (status 400 and
above), not on every non-2xx status. -/
theorem c5_counterexample :
    (¬ (200 ≤ 301 ∧ 301 < 300)) ∧
      (deployProductionOutcome mainPushCtx allOkOracle redirectWorld).status
        = Status.success := by
  refine ⟨by decide, by decide⟩

/-- C5 amended: with the rollout ready, the deploy job fails on the smoke
test exactly when the probe yields an HTTP error (status 400 and above) or
no response; the manifest remains applied (no rollback step exists) with the
failing step reported as the smoke test — while a rollout that never becomes
ready reports the rollout poll as the failing step, a distinct failure kind.
Probe statuses below 400, including 3xx, pass under `curl -f`. -/
theorem c5_smoke_failure_distinct_from_timeout (ctx : RunContext) (o : Oracle)
    (w w' : ClusterWorld) (hc : productionCond ctx = true)
    (hd : buildAllOk ctx o = true) (hr : w.rolloutReady = true)
    (hp : curlOk w.healthResponse = false) (hr' : w'.rolloutReady = false) :
    deployProductionOutcome ctx o w =
        { status := .failure, secretsBound := true, manifestApplied := true,
          failedStep := some .smokeTestFailed } ∧
      deployProductionOutcome ctx o w' =
        { status := .failure, secretsBound := true, manifestApplied := true,
          failedStep := some .rolloutTimeout } ∧
      GateFailureKind.smokeTestFailed ≠ GateFailureKind.rolloutTimeout := by
  refine ⟨?_, ?_, by decide⟩
  · simp [deployProductionOutcome, runDeployJob, hc, hd, hr, hp]
  · simp [deployProductionOutcome, runDeployJob, hc, hd, hr']

/-- Witness for the amended C5: push to `main`, all builds succeed, rollout
ready but the probe answers 500; and a second world whose rollout never
becomes ready. -/
theorem c5_smoke_failure_distinct_from_timeout_witness :
    deployProductionOutcome mainPushCtx allOkOracle ⟨true, some 500⟩ =
        { status := .failure, secretsBound := true, manifestApplied := true,
          failedStep := some .smokeTestFailed } ∧
      deployProductionOutcome mainPushCtx allOkOracle ⟨false, some 200⟩ =
        { status := .failure, secretsBound := true, manifestApplied := true,
          failedStep := some .rolloutTimeout } ∧
      GateFailureKind.smokeTestFailed ≠ GateFailureKind.rolloutTimeout :=
  c5_smoke_failure_distinct_from_timeout mainPushCtx allOkOracle
    ⟨true, some 500⟩ ⟨false, some 200⟩ (by decide) (by decide) (by decide)
    (by decide) (by decide)

end DevOpsPipeline

namespace DevOpsPipeline

/-- C2: matrix instances of one JobSpec are fully independent. A lint
instance's terminal state depends only on its own steps' outcome; a build
instance's terminal state is unchanged by any change confined to its sibling
build instances; and in the concrete scenario where only `lint (backend)`
fails, `lint (frontend)` and `lint (ml-service)` still resolve to success
while `lint (backend)` resolves to failure. -/
theorem c2_matrix_instances_independent (ctx : RunContext) (o o' : Oracle)
    (c : Component) :
    (o (lintInst c) = o' (lintInst c) →
      statusOf (runResolve ctx o) .lint (some c)
        = statusOf (runResolve ctx o') .lint (some c)) ∧
    ((∀ i : JobInstance, i.jobName ≠ .build → o i = o' i) →
      o (buildInst c) = o' (buildInst c) →
      statusOf (runResolve ctx o) .build (some c)
        = statusOf (runResolve ctx o') .build (some c)) ∧
    statusOf (runResolve devPushCtx lintBackendFails) .lint (some .frontend)
      = some .success ∧
    statusOf (runResolve devPushCtx lintBackendFails) .lint (some .backend)
      = some .failure ∧
    statusOf (runResolve devPushCtx lintBackendFails) .lint (some .mlService)
      = some .success := by
  refine ⟨?_, ?_, by decide, by decide, by decide⟩
  · intro h
    rw [statusOf_lint_some, statusOf_lint_some]
    simp [lintStatus, h]
  · intro hag hb
    have h1 := hag (lintInst .frontend) (by decide)
    have h2 := hag (lintInst .backend) (by decide)
    have h3 := hag (lintInst .mlService) (by decide)
    have h4 := hag scanInst (by decide)
    have h5 := hag testInst (by decide)
    rw [statusOf_build_some, statusOf_build_some]
    simp [buildStatus, buildReady, testStatus, scanStatus, lintAllOk,
      h1, h2, h3, h4, h5, hb]

/-- Witness for C2: two oracles that agree on `lint (frontend)` give it the
same terminal state, and an oracle compared with itself gives
`build (frontend)` the same terminal state. -/
theorem c2_matrix_instances_independent_witness :
    statusOf (runResolve devPushCtx allOkOracle) .lint (some .frontend)
        = statusOf (runResolve devPushCtx lintBackendFails) .lint
            (some .frontend) ∧
      statusOf (runResolve devPushCtx lintBackendFails) .build (some .frontend)
        = statusOf (runResolve devPushCtx lintBackendFails) .build
            (some .frontend) :=
  ⟨(c2_matrix_instances_independent devPushCtx allOkOracle lintBackendFails
      .frontend).1 (by decide),
   (c2_matrix_instances_independent devPushCtx lintBackendFails
      lintBackendFails .frontend).2.1 (fun _ _ => rfl) rfl⟩

end DevOpsPipeline

namespace DevOpsPipeline

/-- C6: matrix expansion is total and order-preserving. A job with no matrix
axis expands to exactly one instance; a job with an axis expands to one
instance per declared value, in declared order, each carrying its own axis
binding; the expansion's length is one or the axis length; and for the lint
and build jobs the expansion is exactly the three components in the order
frontend, backend, ml-service, pairwise distinct. -/
theorem c6_matrix_expansion_total_ordered :
    (∀ j : JobSpec, j.matrix = [] → expand j = [⟨j.name, none⟩]) ∧
    (∀ j : JobSpec, (expand j).map (·.component)
      = if j.matrix = [] then [none] else j.matrix.map some) ∧
    (∀ j : JobSpec, (expand j).length = max 1 j.matrix.length) ∧
    expand lintJob = [⟨.lint, some .frontend⟩, ⟨.lint, some .backend⟩,
      ⟨.lint, some .mlService⟩] ∧
    expand buildJob = [⟨.build, some .frontend⟩, ⟨.build, some .backend⟩,
      ⟨.build, some .mlService⟩] ∧
    (expand lintJob).Nodup ∧ (expand buildJob).Nodup := by
  refine ⟨?_, ?_, ?_, by decide, by decide, by decide, by decide⟩
  · intro j h
    simp [expand, h]
  · intro j
    cases h : j.matrix with
    | nil => simp [expand, h]
    | cons v vs => simp [expand, h]
  · intro j
    cases h : j.matrix with
    | nil => simp [expand, h]
    | cons v vs => simp [expand, h]

/-- Witness for C6: the matrix-less `test` job expands to exactly one
instance with no axis binding. -/
theorem c6_matrix_expansion_total_ordered_witness :
    expand testJob = [⟨.test, none⟩] :=
  c6_matrix_expansion_total_ordered.1 testJob rfl

/-- The scheduling order of the plan: every job instance in declaration
order (matrix instances in axis order), the stable topological tie-break
order of spec §4.3. -/
def plannedOrder : List JobInstance :=
  [lintInst .frontend, lintInst .backend, lintInst .mlService, scanInst,
    testInst, buildInst .frontend, buildInst .backend, buildInst .mlService,
    stagingInst, productionInst]

/-- A scheduling order respects dependencies when no instance directly needs
an instance scheduled after it. -/
def orderRespectsNeeds : List JobInstance → Bool
  | [] => true
  | i :: rest =>
    rest.all (fun l => !(directNeeds i.jobName l.jobName)) &&
      orderRespectsNeeds rest

/-- C7: resolution is deterministic — identical pipeline, context and step
outcomes give identical terminal states in an identical order; moreover the
scheduling order is the fixed declaration-order topological order
`plannedOrder`, the same in every run, and that order schedules every
dependency before its dependents. -/
theorem c7_two_run_determinism (ctx ctx' : RunContext) (o o' : Oracle) :
    (ctx = ctx' → (∀ i, o i = o' i) → runResolve ctx o = runResolve ctx' o') ∧
    (runResolve ctx o).map (·.1) = plannedOrder ∧
    orderRespectsNeeds plannedOrder = true := by
  refine ⟨?_, ?_, by decide⟩
  · rintro rfl h
    have : o = o' := funext h
    rw [this]
  · rw [runResolve_closed]
    rfl

/-- Witness for C7: two runs with the same context and pointwise-equal
oracles produce the same report. -/
theorem c7_two_run_determinism_witness :
    runResolve devPushCtx allOkOracle = runResolve devPushCtx allOkOracle :=
  (c7_two_run_determinism devPushCtx devPushCtx allOkOracle allOkOracle).1
    rfl (fun _ => rfl)

end DevOpsPipeline

namespace DevOpsPipeline

/-- C9: the trigger conditions of deploy-staging and deploy-production are
mutually exclusive — no event kind, branch and dispatch-input combination
satisfies both — so in every run at least one of the two deploy jobs
resolves to `skipped`: at most one environment is ever deployed per run. -/
theorem c9_deploy_conditions_mutually_exclusive (ctx : RunContext)
    (o : Oracle) :
    (stagingCond ctx && productionCond ctx) = false ∧
      (statusOf (runResolve ctx o) .deployStaging none = some .skipped ∨
        statusOf (runResolve ctx o) .deployProduction none = some .skipped) := by
  have hexcl : (stagingCond ctx && productionCond ctx) = false := by
    cases hev : ctx.eventName with
    | push =>
      cases hd : (ctx.ref == "refs/heads/develop") with
      | false => simp [stagingCond, productionCond, hev, hd]
      | true =>
        have h1 : ctx.ref = "refs/heads/develop" := by
          simpa using hd
        simp [stagingCond, productionCond, hev, h1]
    | pull_request => simp [stagingCond, productionCond, hev]
    | workflow_dispatch =>
      cases hi : ctx.inputEnvironment with
      | none => simp [stagingCond, productionCond, hev, hi]
      | some env =>
        cases env <;> simp [stagingCond, productionCond, hev, hi]
  refine ⟨hexcl, ?_⟩
  cases hst : stagingCond ctx with
  | false =>
    exact Or.inl (by rw [statusOf_staging]; simp [stagingStatus, hst])
  | true =>
    have hp : productionCond ctx = false := by
      rcases Bool.and_eq_false_iff.mp hexcl with h | h
      · exact absurd hst (by simp [h])
      · exact h
    exact Or.inr (by rw [statusOf_production]; simp [productionStatus, hp])

end DevOpsPipeline

namespace DevOpsPipeline

/-- C10: in a run triggered by a pull_request event, every build matrix
instance resolves to `skipped` (its steps — including the image push — never
execute, since the build condition admits only push and workflow_dispatch),
and both deploy jobs resolve to `skipped` with no manifest applied and no
secret bound (their own conditions reject the event, and their `build`
dependency did not succeed). -/
theorem c10_pull_request_never_builds_or_deploys (ctx : RunContext)
    (o : Oracle) (w : ClusterWorld) (h : ctx.eventName = .pull_request) :
    (∀ c, statusOf (runResolve ctx o) .build (some c) = some .skipped) ∧
      statusOf (runResolve ctx o) .deployStaging none = some .skipped ∧
      statusOf (runResolve ctx o) .deployProduction none = some .skipped ∧
      deployStagingOutcome ctx o w =
        { status := .skipped, secretsBound := false, manifestApplied := false,
          failedStep := none } ∧
      deployProductionOutcome ctx o w =
        { status := .skipped, secretsBound := false, manifestApplied := false,
          failedStep := none } := by
  have hbc : buildCond ctx = false := by simp [buildCond, h]
  have hbr : buildReady ctx o = false := by simp [buildReady, hbc]
  obtain ⟨hb, hba, hst, hpd⟩ := skipped_of_buildReady_false hbr
  have hsc : stagingCond ctx = false := by simp [stagingCond, h]
  have hpc : productionCond ctx = false := by simp [productionCond, h]
  refine ⟨?_, ?_, ?_, ?_, ?_⟩
  · intro c; rw [statusOf_build_some, hb c]
  · rw [statusOf_staging, hst]
  · rw [statusOf_production, hpd]
  · simp [deployStagingOutcome, runDeployJob, hsc]
  · simp [deployProductionOutcome, runDeployJob, hpc]

/-- Run context of the C10 witness: a pull request targeting `develop`. -/
def prCtx : RunContext :=
  { eventName := .pull_request, ref := "refs/pull/7/merge",
    sha := "89abcdef0123456789abcdef0123456789abcdef",
    inputEnvironment := none }

/-- Witness for C10 at a concrete pull-request run. -/
theorem c10_pull_request_never_builds_or_deploys_witness :
    statusOf (runResolve prCtx allOkOracle) .build (some .frontend)
        = some .skipped ∧
      statusOf (runResolve prCtx allOkOracle) .deployStaging none
        = some .skipped ∧
      statusOf (runResolve prCtx allOkOracle) .deployProduction none
        = some .skipped ∧
      deployStagingOutcome prCtx allOkOracle goodWorld =
        { status := .skipped, secretsBound := false, manifestApplied := false,
          failedStep := none } ∧
      deployProductionOutcome prCtx allOkOracle goodWorld =
        { status := .skipped, secretsBound := false, manifestApplied := false,
          failedStep := none } :=
  ⟨(c10_pull_request_never_builds_or_deploys prCtx allOkOracle goodWorld
      rfl).1 .frontend,
    (c10_pull_request_never_builds_or_deploys prCtx allOkOracle goodWorld
      rfl).2⟩

end DevOpsPipeline

namespace DevOpsPipeline

/-- Registry path segment of a component, as used in image names. -/
def componentName : Component → String
  | .frontend => "frontend"
  | .backend => "backend"
  | .mlService => "ml-service"

/-- The value of `github.repository` for this repository. -/
def repoName : String := "aditya3134802/Image-Processing-DevOps-Pipeline"

/-- Image name base `ghcr.io/${{ github.repository }}/<component>`
(workflow lines 236 and 283–285). -/
def imageBase (c : Component) : String :=
  "ghcr.io/" ++ repoName ++ "/" ++ componentName c

/-- Short SHA `COMMIT_SHA=$(echo ${{ github.sha }} | cut -c1-7)` (workflow lines 282
and 343): the first seven characters of the commit SHA. -/
def shortSha (sha : String) : String := String.mk (sha.data.take 7)

/-- The branch name of a `refs/heads/...` ref: the ref with the leading
eleven characters removed. -/
def branchShortName (ref : String) : String := String.mk (ref.data.drop 11)

/-- Tags published by the build job's metadata step as configured at
workflow lines 237–241: `type=ref,event=branch` yields the branch name on a
push run; `type=sha,format=long` with the empty override after the comma
yields the full 40-character commit SHA with no added text before it.
(`type=ref,event=pr` applies only to pull_request runs, on which the build
job never runs, and `type=semver` applies only to version-tag refs; neither
contributes a tag on the runs considered here.) -/
def buildPublishedTags (ctx : RunContext) : List String :=
  (if ctx.eventName == .push then [branchShortName ctx.ref] else []) ++
    [ctx.sha]

/-- Full image references the build job pushes for one component. -/
def buildPublishedImages (ctx : RunContext) (c : Component) : List String :=
  (buildPublishedTags ctx).map fun t => imageBase c ++ ":" ++ t

/-- Image reference the deploy jobs write into the manifests (workflow
lines 283–285 and 344–346): `<base>:sha-$COMMIT_SHA` with the seven-character
short SHA. -/
def deployImageRef (c : Component) (sha : String) : String :=
  imageBase c ++ ":sha-" ++ shortSha sha

/-- C8 evaluated at a deploying run (push to `develop`): the image reference
the deploy job applies — `:sha-` followed by the 7-character short SHA — is
not among the references the build job publishes, which are the branch tag
and the bare full 40-character SHA. The deploy jobs therefore reference a
tag the build job never published for that commit. -/
theorem c8_deploy_tag_never_published :
    deployImageRef .frontend devPushCtx.sha =
        "ghcr.io/aditya3134802/Image-Processing-DevOps-Pipeline/frontend:sha-0123456" ∧
      buildPublishedImages devPushCtx .frontend =
        ["ghcr.io/aditya3134802/Image-Processing-DevOps-Pipeline/frontend:develop",
         "ghcr.io/aditya3134802/Image-Processing-DevOps-Pipeline/frontend:0123456789abcdef0123456789abcdef01234567"] ∧
      (buildPublishedImages devPushCtx .frontend).contains
        (deployImageRef .frontend devPushCtx.sha) = false := by
  refine ⟨by decide, by decide, by decide⟩

end DevOpsPipeline
